import Mathlib

/-!
# Verification of `terrawrap.ts`

A shallow embedding of the terraform wrapper `src/terrawrap.ts` (a Deno /
TypeScript program) and proofs about it.

Modelling conventions:

* Parsed YAML documents are modelled by `JSValue`, a JavaScript-style value
  with `undefined`, so that optional chaining (`o?.prefix`) and string
  coercion (`String(undefined) = "undefined"`) can be rendered faithfully.
* Absolute normalized POSIX paths (the output of `path.resolve`) are modelled
  as their list of components (`List String`); the root `/` is `[]`.
  `path.join dir name` is `dir ++ [name]` and `path.dirname` of such a join
  is `dropLast`, matching POSIX `dirname` on normalized absolute paths.
  `pathToString` renders the actual string the program manipulates, since
  the `key` computation slices the working-directory *string*.
* File-system reads (`Deno.readTextFile` composed with `parseYml`, both
  inside one `try`) are modelled by an oracle `fs : List String → FileOutcome`
  giving, per candidate path, either not-found, a read error, a parse error,
  or the parsed `JSValue`.
* `panic` (print + `Deno.exit(1)`) is modelled as an explicit result
  constructor carrying the printed message.
-/

namespace Terrawrap

/-- A JavaScript value as produced by `parseYml`, including `undefined`
(the result of a missing-property access) so optional chaining and
`String(...)` coercion can be modelled. Numbers are modelled as integers
(no claim in this development depends on float formatting). -/
inductive JSValue where
  | str (s : String)
  | num (n : Int)
  | bool (b : Bool)
  | null
  | undefined
  | arr (elems : List JSValue)
  | obj (fields : List (String × JSValue))

/-- JavaScript property access with optional chaining (`v?.k`): a lookup in
an object's fields; on anything that is not an object with the key present
(including `null`/`undefined`, which optional chaining short-circuits, and
primitives/arrays, which lack these properties) it yields `undefined`. -/
def jsGet : JSValue → String → JSValue
  | .obj fields, k =>
    match fields.find? (fun p => p.1 = k) with
    | some p => p.2
    | none => .undefined
  | _, _ => .undefined

mutual

/-- JavaScript `ToString` coercion, as applied by `String.prototype.startsWith`
and template-literal interpolation. `undefined` becomes the literal text
`"undefined"`; arrays join their elements with `,`; objects render as
`[object Object]`. -/
def jsToString : JSValue → String
  | .str s => s
  | .num n => toString n
  | .bool b => if b then "true" else "false"
  | .null => "null"
  | .undefined => "undefined"
  | .arr xs => String.intercalate "," (jsToStringList xs)
  | .obj _ => "[object Object]"

/-- Elementwise `ToString` of an array's elements (`Array.prototype.join`). -/
def jsToStringList : List JSValue → List String
  | [] => []
  | x :: xs => jsToString x :: jsToStringList xs

end

/-- `isValidString` from the source: `typeof s == "string" && s.length > 0`,
applied to a JavaScript value. -/
def isValidString : JSValue → Bool
  | .str s => decide (0 < s.length)
  | _ => false

/-- `Array.isArray`. -/
def isArray : JSValue → Bool
  | .arr _ => true
  | _ => false

/-- `String.prototype.startsWith`: is `p` a prefix of `s`? Modelled as the
character-level prefix test (library `String.startsWith` is extensionally
the same but is defined by well-founded recursion on byte positions, which
the kernel cannot evaluate). -/
def strStartsWith (s p : String) : Bool :=
  p.data.isPrefixOf s.data

/-- The string content of a `JSValue` known to be a string (`""` otherwise);
used to extract a value after `isValidString` has validated it. -/
def jsStrVal : JSValue → String
  | .str s => s
  | _ => ""

/-- An absolute normalized POSIX path, as a list of components;
`[]` is the filesystem root `/`. -/
abbrev Path := List String

/-- The string rendering of an absolute normalized POSIX path:
`[] ↦ "/"`, `["a","b"] ↦ "/a/b"`. This is the form `path.resolve` and
`path.join` produce in the program. -/
def pathToString (p : Path) : String :=
  if p.isEmpty then "/" else String.join (p.map (fun c => "/" ++ c))

/-- The loop body of `allPossibleConfigLocation`, driven by the number of
remaining parent steps: yield `<dir>/wrapper-config.yml` then
`<dir>/wrapper-config.yaml`, move to the parent (`dropLast`), and stop after
the root's pair (at the root, `path.dirname` is a fixed point, which is
reached after exactly `dir.length` parent steps). -/
def allPossibleConfigLocationGo : Nat → Path → List Path
  | 0, dir => [dir ++ ["wrapper-config.yml"], dir ++ ["wrapper-config.yaml"]]
  | n + 1, dir =>
    (dir ++ ["wrapper-config.yml"]) :: (dir ++ ["wrapper-config.yaml"]) ::
      allPossibleConfigLocationGo n dir.dropLast

/-- `allPossibleConfigLocation`: the lazy generator of candidate config
paths, fully enumerated (the scan consumes it linearly and the sequence is
finite, ending at the filesystem root). -/
def allPossibleConfigLocation (p : Path) : List Path :=
  allPossibleConfigLocationGo p.length p

/-- Outcome of `parseYml(await Deno.readTextFile(configFile))` for one
candidate path: the file may be absent (`Deno.errors.NotFound`), reading may
fail for another reason, parsing may throw, or a value is produced. -/
inductive FileOutcome where
  | notFound
  | readError (e : String)
  | parseError (e : String)
  | parsed (v : JSValue)

/-- The validation block of `loadConfig`: collect an error message for each
of the four `s3_backend` fields that is not a non-empty string, and for a
non-array `execution`, in source order. -/
def validateConfig (parsed : JSValue) : List String :=
  (if !(isValidString (jsGet (jsGet parsed "s3_backend") "role_arn")) then
    ["Invalid \".s3_backend.role_arn\""] else []) ++
  (if !(isValidString (jsGet (jsGet parsed "s3_backend") "region")) then
    ["Invalid \".s3_backend.region\""] else []) ++
  (if !(isValidString (jsGet (jsGet parsed "s3_backend") "bucket")) then
    ["Invalid \".s3_backend.bucket\""] else []) ++
  (if !(isValidString (jsGet (jsGet parsed "s3_backend") "dynamodb_table")) then
    ["Invalid \".s3_backend.dynamodb_table\""] else []) ++
  (if !(isArray (jsGet parsed "execution")) then
    ["Invalid \".execution\""] else [])

/-- The resolved context returned by a successful `loadConfig`. -/
structure Config where
  file : Path
  workingDir : Path
  key : String
  config : JSValue

/-- Result of `loadConfig`: a fatal `panic` with its printed message, a
resolved configuration, or `null` (no candidate file existed). -/
inductive LoadResult where
  | panic (msg : String)
  | found (cfg : Config)
  | noConfig

/-- The key computation of `loadConfig`:
`workingDir.slice(path.dirname(configFile).length + 1)`. `configFile` always
has a final filename component, so `path.dirname` of its string is the string
of `dropLast`; JavaScript `slice(n)` drops the first `n` UTF-16 units, here
the first `n` characters. -/
def configKey (workingDir : Path) (configFile : Path) : String :=
  (pathToString workingDir).drop ((pathToString configFile.dropLast).length + 1)

/-- The scanning loop of `loadConfig` over an explicit list of candidate
paths: skip a missing file, `panic` on any other read error or parse error
naming the file and the error, `panic` on a found-but-invalid file listing
all validation errors, and otherwise return the resolved context. -/
def loadConfigFrom (fs : Path → FileOutcome) (workingDir : Path) :
    List Path → LoadResult
  | [] => .noConfig
  | configFile :: rest =>
    match fs configFile with
    | .notFound => loadConfigFrom fs workingDir rest
    | .readError e => .panic ("File: " ++ pathToString configFile ++ "\n" ++ e)
    | .parseError e => .panic ("File: " ++ pathToString configFile ++ "\n" ++ e)
    | .parsed v =>
      let errors := validateConfig v
      if errors.length > 0 then
        .panic ("Config error: " ++ pathToString configFile ++ "\n" ++
          String.intercalate "\n" errors)
      else
        .found { file := configFile, workingDir := workingDir,
                 key := configKey workingDir configFile, config := v }

/-- `loadConfig`: scan every candidate location from the working directory
up to the root. -/
def loadConfig (fs : Path → FileOutcome) (workingDir : Path) : LoadResult :=
  loadConfigFrom fs workingDir (allPossibleConfigLocation workingDir)

/-- A JavaScript line terminator, which `.` in a regular expression without
the `s` flag does not match. -/
def lineTerminator (c : Char) : Bool :=
  c = '\n' || c = '\r' || c = Char.ofNat 0x2028 || c = Char.ofNat 0x2029

/-- `"-chdir".data`, the mandatory core of the pattern `-?-chdir($|=(.*$))`. -/
def chdirCore : List Char := ['-', 'c', 'h', 'd', 'i', 'r']

/-- Whether the pattern `-?-chdir($|=(.*$))` matches at the head of `l`, and
the value of capture group 2 if so. The optional leading `-` never changes
whether some match exists nor the capture, so the core `-chdir` is what is
located. After the core, `$` succeeds only at the end of input, and
`=(.*$)` succeeds only when everything after the `=` is free of line
terminators (`.` cannot cross one and `$` without `m` only matches the very
end); the greedy `.*$` capture is then the whole remainder. -/
def chdirAt (l : List Char) : Option (Option String) :=
  if chdirCore.isPrefixOf l then
    match l.drop 6 with
    | [] => some none
    | c :: v =>
      if c = '=' then
        if v.all (fun d => !(lineTerminator d)) then some (some ⟨v⟩) else none
      else none
  else none

/-- Leftmost-match search of `-?-chdir($|=(.*$))` over the characters of an
argument: the first position where the core matches with a satisfiable tail
wins, exactly as the unanchored JavaScript regex engine scans. -/
def chdirScan : List Char → Option (Option String)
  | [] => none
  | c :: rest =>
    match chdirAt (c :: rest) with
    | some m => some m
    | none => chdirScan rest

/-- `arg.match(chdirRe)` reduced to what the program consumes: `none` when
the regex does not match, `some none` when it matches with group 2 undefined
(the `$` branch: the argument ends in `-chdir`), and `some (some v)` when
group 2 captured `v` (the `=` branch). -/
def chdirMatch (s : String) : Option (Option String) := chdirScan s.data

/-- Outcome of the working-directory scan: the resolved override (or `none`
meaning fall back to `Deno.cwd()`), or a fatal panic. -/
inductive ChdirResult where
  | ok (cwd : Option String)
  | panic (msg : String)

/-- The argument loop of `workingDir`: on a match, panic if an override was
already set; take group 2 if defined, else consume the *next* argument
(`Deno.args[++i]`, which is `undefined` when past the end, and which is then
skipped by the loop); panic unless the value is a non-empty string. -/
def findChdir : List String → Option String → ChdirResult
  | [], cwd => .ok cwd
  | a :: rest, cwd =>
    match chdirMatch a with
    | none => findChdir rest cwd
    | some m =>
      if cwd.isSome then .panic "Invalid multiple -chdir option"
      else
        match m with
        | some v =>
          if 0 < v.length then findChdir rest (some v)
          else .panic "Invalid -chdir option"
        | none =>
          match rest with
          | [] => .panic "Invalid -chdir option"
          | v :: rest2 =>
            if 0 < v.length then findChdir rest2 (some v)
            else .panic "Invalid -chdir option"

/-- The mutable-accumulator loop computing `executionRole`: for each rule in
order, if `key.startsWith(o?.prefix!)` (the argument undergoing `ToString`
coercion, so a missing `prefix` becomes the text `"undefined"`), the
accumulator is overwritten with `o?.aws_execution_role!`; the loop breaks as
soon as that value is a non-empty string. -/
def executionRoleLoop (key : String) : List JSValue → JSValue → JSValue
  | [], acc => acc
  | o :: rest, acc =>
    if strStartsWith key (jsToString (jsGet o "prefix")) then
      let r := jsGet o "aws_execution_role"
      if isValidString r then r else executionRoleLoop key rest r
    else
      executionRoleLoop key rest acc

/-- Role resolution: run `executionRoleLoop` from the initial `""`; if the
final value is not a non-empty string, panic naming the config file and the
key. -/
def resolveRole (file : Path) (key : String) (rules : List JSValue) :
    Except String String :=
  let r := executionRoleLoop key rules (.str "")
  if isValidString r then .ok (jsStrVal r)
  else
    .error ("No execution role is found in " ++ pathToString file ++
      " for key " ++ key)

/-- The four validated backend fields, extracted the way template-literal
interpolation reads them (after validation each is a non-empty string, so
`jsToString` is the identity on the stored text). -/
structure S3Backend where
  role_arn : String
  region : String
  bucket : String
  dynamodb_table : String

/-- Extraction of `config.config.s3_backend` for the template. -/
def s3BackendOf (v : JSValue) : S3Backend :=
  { role_arn := jsToString (jsGet (jsGet v "s3_backend") "role_arn")
    region := jsToString (jsGet (jsGet v "s3_backend") "region")
    bucket := jsToString (jsGet (jsGet v "s3_backend") "bucket")
    dynamodb_table := jsToString (jsGet (jsGet v "s3_backend") "dynamodb_table") }

/-- `config.config.execution` as a rule list (validation guarantees the
array case). -/
def executionRules (v : JSValue) : List JSValue :=
  match jsGet v "execution" with
  | .arr xs => xs
  | _ => []

/-- The rendered `00_generated.tf` content, the template literal of the
source verbatim (`\x7b`/`\x7d` are the literal braces of the template). -/
def generatedContent (backend : S3Backend) (key executionRole : String) :
    String :=
  "# THIS FILE IS GENERATED, DO NOT EDIT, DO NOT COMMIT\n\nterraform \x7b\n  backend \"s3\" \x7b\n    role_arn       = \"" ++ backend.role_arn ++
  "\"\n    region         = \"" ++ backend.region ++
  "\"\n    bucket         = \"" ++ backend.bucket ++
  "\"\n    dynamodb_table = \"" ++ backend.dynamodb_table ++
  "\"\n    key            = \"" ++ key ++
  "\"\n  \x7d\n\x7d\n\nlocals \x7b\n  generated = \x7b\n    state_key          = \"" ++ key ++
  "\"\n    aws_execution_role = \"" ++ executionRole ++
  "\"\n    remote_state = \x7b\n      backend = \"s3\"\n      config = \x7b\n        role_arn       = \"" ++ backend.role_arn ++
  "\"\n        region         = \"" ++ backend.region ++
  "\"\n        bucket         = \"" ++ backend.bucket ++
  "\"\n        dynamodb_table = \"" ++ backend.dynamodb_table ++
  "\"\n      \x7d\n    \x7d\n  \x7d\n\x7d\n"

/-- What `Deno.run(...).status()` reports: an exit code and, if the process
was killed by a signal, the signal number. -/
structure ProcStatus where
  code : Nat
  signal : Option Nat
  deriving Repr, DecidableEq

/-- Observable steps of the subprocess runner. -/
inductive Event where
  | beforeRan
  | invoked (cmd : List String)
  | afterRan
  deriving Repr, DecidableEq

/-- The environment and effect outcomes a run of `terraform(before, after)`
depends on: the hook results (`none` when the hook argument is absent,
`some (.error e)` when the hook throws), the `TERRAWRAP_NO_TERRAFORM`
override, the argument list, and what spawning-and-waiting on the
subprocess would yield (`.error` when `Deno.run`/`status` throws). -/
structure TerraformCtx where
  before : Option (Except String Unit)
  after : Option (Except String Unit)
  noTerraform : Bool
  args : List String
  run : Except String ProcStatus

/-- Result of `terraform(...)`: the returned code or the propagated
exception, plus the trace of steps that executed. -/
structure TerraformOutcome where
  result : Except String Nat
  events : List Event

/-- The `try` block of `terraform`: run the before hook if given (its
exception propagates), return `0` under the no-terraform override, otherwise
spawn `["terraform", ...Deno.args]` and map a normal exit to its code and a
signal death to `1`. -/
def terraformTry (ctx : TerraformCtx) : Except String Nat × List Event :=
  let bevs := if ctx.before.isSome then [Event.beforeRan] else []
  match ctx.before with
  | some (.error e) => (.error e, bevs)
  | _ =>
    if ctx.noTerraform then (.ok 0, bevs)
    else
      match ctx.run with
      | .error e => (.error e, bevs ++ [.invoked ("terraform" :: ctx.args)])
      | .ok st =>
        (.ok (if st.signal.isNone then st.code else 1),
          bevs ++ [.invoked ("terraform" :: ctx.args)])

/-- `terraform(before, after)` with its `finally`: the after hook, when
given, runs on every exit path of the `try` block; if the after hook itself
throws, its exception replaces the `try` result (JavaScript `finally`
semantics). -/
def terraform (ctx : TerraformCtx) : TerraformOutcome :=
  let t := terraformTry ctx
  match ctx.after with
  | none => ⟨t.1, t.2⟩
  | some (.ok _) => ⟨t.1, t.2 ++ [.afterRan]⟩
  | some (.error e) => ⟨.error e, t.2 ++ [.afterRan]⟩

/-- How the whole process ends: `Deno.exit` with the runner's code, a
`panic` (message on stderr, exit code 1), or an uncaught exception
(also a non-zero exit). -/
inductive MainOutcome where
  | exited (code : Nat) (events : List Event)
  | panicked (msg : String)
  | crashed (e : String) (events : List Event)

/-- `Deno.exit(await terraform(...))` on a runner outcome. -/
def mainFinish (o : TerraformOutcome) : MainOutcome :=
  match o.result with
  | .ok c => .exited c o.events
  | .error e => .crashed e o.events

/-- The top-level control flow after `workingDir` is fixed: load the config;
with no config, run the bare `terraform()`; otherwise check the key, resolve
the role, and run `terraform` with the write-file before hook and the
cleanup after hook (a no-op success under `TERRAWRAP_NO_CLEANUP`).
`writeRes`/`removeRes` are the outcomes `Deno.writeTextFile`/`Deno.remove`
would have. -/
def runMain (fs : Path → FileOutcome) (workingDir : Path) (args : List String)
    (noTerraform noCleanup : Bool) (run : Except String ProcStatus)
    (writeRes removeRes : Except String Unit) : MainOutcome :=
  match loadConfig fs workingDir with
  | .panic msg => .panicked msg
  | .noConfig => mainFinish (terraform ⟨none, none, noTerraform, args, run⟩)
  | .found cfg =>
    if !(isValidString (.str cfg.key)) then
      .panicked ("Working directory must be in subdirectory of config file " ++
        pathToString cfg.file)
    else
      match resolveRole cfg.file cfg.key (executionRules cfg.config) with
      | .error msg => .panicked msg
      | .ok _role =>
        let afterRes := if noCleanup then Except.ok () else removeRes
        mainFinish (terraform ⟨some writeRes, some afterRes, noTerraform, args, run⟩)

/-! ## Specification-side definitions

Definitions in this block render phrases of the specification (not the
source code); they exist to be compared against the source-derived
definitions above. -/

/-- The relative path of a descendant below an ancestor directory, given the
list of components between them: the components joined by the separator.
This renders the spec phrase "D's path relative to the config file's
directory". -/
def relString : List String → String
  | [] => ""
  | [a] => a
  | a :: b :: t => a ++ "/" ++ relString (b :: t)

/-- The first rule, in list order, that the loop of the program actually
selects: its (ToString-coerced) `prefix` is a string-prefix of the key and
its `aws_execution_role` is a non-empty string. -/
def firstMatchingRule (key : String) (rules : List JSValue) : Option JSValue :=
  rules.find? (fun o =>
    strStartsWith key (jsToString (jsGet o "prefix")) &&
    isValidString (jsGet o "aws_execution_role"))

/-- The selector claimed by the specification sentence for role resolution:
the first rule whose *non-empty* `prefix` is a string-prefix of the key and
whose `aws_execution_role` is non-empty; `none` means resolution fails. -/
def claimedRole (key : String) (rules : List JSValue) : Option String :=
  (rules.find? (fun o =>
    isValidString (jsGet o "prefix") &&
    strStartsWith key (jsStrVal (jsGet o "prefix")) &&
    isValidString (jsGet o "aws_execution_role"))).map
  (fun o => jsStrVal (jsGet o "aws_execution_role"))

/-- `sub` occurs somewhere in `s`. -/
def containsSub (s sub : String) : Prop := ∃ a b, s = a ++ (sub ++ b)

/-- `sub` occurs at two (disjoint) places in `s`. -/
def containsTwice (s sub : String) : Prop :=
  ∃ a b c, s = a ++ (sub ++ (b ++ (sub ++ c)))

/-- A concrete configuration value that satisfies every validation check. -/
def validConfigExample : JSValue :=
  .obj [("s3_backend", .obj [("role_arn", .str "r"), ("region", .str "g"),
          ("bucket", .str "b"), ("dynamodb_table", .str "t")]),
        ("execution", .arr [])]

/-! ## Theorems -/

/-- The accumulator loop agrees with the first-match selector: if a rule
matches (coerced prefix is a prefix of the key, role non-empty), the loop
returns the first such rule's role; otherwise the loop's final value is not
a valid string, whatever invalid accumulator it started from. -/
theorem executionRoleLoop_eq_firstMatchingRule (key : String) :
    ∀ (rules : List JSValue) (acc : JSValue), isValidString acc = false →
      (∀ o, firstMatchingRule key rules = some o →
        executionRoleLoop key rules acc = jsGet o "aws_execution_role") ∧
      (firstMatchingRule key rules = none →
        isValidString (executionRoleLoop key rules acc) = false)
  | [], acc, hacc => by
    constructor
    · intro o ho
      simp [firstMatchingRule] at ho
    · intro _
      simpa [executionRoleLoop] using hacc
  | r :: rules, acc, hacc => by
    by_cases hs : strStartsWith key (jsToString (jsGet r "prefix"))
    · by_cases hv : isValidString (jsGet r "aws_execution_role")
      · constructor
        · intro o ho
          have : firstMatchingRule key (r :: rules) = some r := by
            simp [firstMatchingRule, List.find?_cons, hs, hv]
          rw [this] at ho
          cases ho
          simp [executionRoleLoop, hs, hv]
        · intro hnone
          have : firstMatchingRule key (r :: rules) = some r := by
            simp [firstMatchingRule, List.find?_cons, hs, hv]
          rw [this] at hnone
          cases hnone
      · have hrec := executionRoleLoop_eq_firstMatchingRule key rules
          (jsGet r "aws_execution_role") (by simpa using hv)
        have hstep : executionRoleLoop key (r :: rules) acc =
            executionRoleLoop key rules (jsGet r "aws_execution_role") := by
          simp [executionRoleLoop, hs, hv]
        have hfm : firstMatchingRule key (r :: rules) = firstMatchingRule key rules := by
          simp [firstMatchingRule, List.find?_cons, hs, hv]
        constructor
        · intro o ho
          rw [hstep]
          exact hrec.1 o (by rw [← hfm]; exact ho)
        · intro hnone
          rw [hstep]
          exact hrec.2 (by rw [← hfm]; exact hnone)
    · have hrec := executionRoleLoop_eq_firstMatchingRule key rules acc hacc
      have hstep : executionRoleLoop key (r :: rules) acc =
          executionRoleLoop key rules acc := by
        simp [executionRoleLoop, hs]
      have hfm : firstMatchingRule key (r :: rules) = firstMatchingRule key rules := by
        simp [firstMatchingRule, List.find?_cons, hs]
      constructor
      · intro o ho
        rw [hstep]
        exact hrec.1 o (by rw [← hfm]; exact ho)
      · intro hnone
        rw [hstep]
        exact hrec.2 (by rw [← hfm]; exact hnone)

/-- Claim C2 (amended): the selected execution role is the
`aws_execution_role` of the first rule in list order whose ToString-coerced
`prefix` (a missing `prefix` becomes the text "undefined", an empty one
matches every key) is a string-prefix of the key and whose
`aws_execution_role` is a non-empty string; if no such rule exists,
resolution fails naming the config file and the key. -/
theorem role_resolution_first_match (file : Path) (key : String)
    (rules : List JSValue) :
    resolveRole file key rules =
      match firstMatchingRule key rules with
      | some o => Except.ok (jsStrVal (jsGet o "aws_execution_role"))
      | none => Except.error ("No execution role is found in " ++
          pathToString file ++ " for key " ++ key) := by
  have h := executionRoleLoop_eq_firstMatchingRule key rules (.str "") rfl
  cases hfm : firstMatchingRule key rules with
  | some o =>
    have hv : isValidString (jsGet o "aws_execution_role") = true := by
      have := List.find?_some hfm
      exact (Bool.and_eq_true _ _ |>.mp this).2
    have hloop := h.1 o hfm
    simp [resolveRole, hloop, hv]
  | none =>
    have hloop := h.2 hfm
    simp [resolveRole, hloop]

/-- Claim C2, counterexample: a rule whose `prefix` is the *empty* string is
selected by the program (an empty string is a prefix of every key), while
the claimed selector, which requires a non-empty `prefix`, reports failure. -/
theorem role_resolution_empty_prefix_counterexample :
    resolveRole ["d"] "k"
        [.obj [("prefix", .str ""), ("aws_execution_role", .str "R")]] =
      Except.ok "R" ∧
    claimedRole "k"
        [.obj [("prefix", .str ""), ("aws_execution_role", .str "R")]] =
      none := by
  exact ⟨rfl, rfl⟩

/-- Claim C10: a rule with no `prefix` field reads `undefined`, which
`startsWith` coerces to the text "undefined"; such a rule matches exactly
the keys beginning with "undefined" (it neither matches every key nor is
skipped). -/
theorem missing_prefix_matches_undefined_text (f : Path) (key r : String)
    (h : 0 < r.length) :
    resolveRole f key [.obj [("aws_execution_role", .str r)]] =
      (if strStartsWith key "undefined" then Except.ok r
       else Except.error ("No execution role is found in " ++
          pathToString f ++ " for key " ++ key)) := by
  have hget : jsGet (.obj [("aws_execution_role", .str r)]) "prefix" =
      JSValue.undefined := rfl
  have hrole : jsGet (.obj [("aws_execution_role", .str r)]) "aws_execution_role" =
      .str r := rfl
  by_cases hk : strStartsWith key "undefined"
  · simp [resolveRole, executionRoleLoop, hget, hrole, jsToString, hk,
      isValidString, h, jsStrVal]
  · simp [resolveRole, executionRoleLoop, hget, hrole, jsToString, hk,
      isValidString, jsStrVal]

/-- Witness for C10: with role "R", the key "undefinedx" (which starts with
"undefined") selects the rule, and the key "abc" does not. -/
theorem missing_prefix_matches_undefined_text_witness :
    (resolveRole ["d"] "undefinedx" [.obj [("aws_execution_role", .str "R")]] =
      (if strStartsWith "undefinedx" "undefined" then Except.ok "R"
       else Except.error ("No execution role is found in " ++
          pathToString ["d"] ++ " for key " ++ "undefinedx"))) ∧
    (resolveRole ["d"] "abc" [.obj [("aws_execution_role", .str "R")]] =
      (if strStartsWith "abc" "undefined" then Except.ok "R"
       else Except.error ("No execution role is found in " ++
          pathToString ["d"] ++ " for key " ++ "abc"))) :=
  ⟨missing_prefix_matches_undefined_text ["d"] "undefinedx" "R" (by decide),
   missing_prefix_matches_undefined_text ["d"] "abc" "R" (by decide)⟩

/-- Claim C3: a configuration file that parses but fails any of the five
validation checks (the four required `s3_backend` string fields, a non-array
`execution`) makes loading fail fatally with a single report listing every
violated field; the panic is the same whatever candidates follow, so no
further file is scanned. -/
theorem invalid_config_reports_all_errors (fs : Path → FileOutcome)
    (wd f : Path) (rest : List Path) (v : JSValue)
    (hf : fs f = .parsed v)
    (hbad : isValidString (jsGet (jsGet v "s3_backend") "role_arn") = false ∨
            isValidString (jsGet (jsGet v "s3_backend") "region") = false ∨
            isValidString (jsGet (jsGet v "s3_backend") "bucket") = false ∨
            isValidString (jsGet (jsGet v "s3_backend") "dynamodb_table") = false ∨
            isArray (jsGet v "execution") = false) :
    loadConfigFrom fs wd (f :: rest) =
      .panic ("Config error: " ++ pathToString f ++ "\n" ++
        String.intercalate "\n" (validateConfig v)) ∧
    (isValidString (jsGet (jsGet v "s3_backend") "role_arn") = false →
      "Invalid \".s3_backend.role_arn\"" ∈ validateConfig v) ∧
    (isValidString (jsGet (jsGet v "s3_backend") "region") = false →
      "Invalid \".s3_backend.region\"" ∈ validateConfig v) ∧
    (isValidString (jsGet (jsGet v "s3_backend") "bucket") = false →
      "Invalid \".s3_backend.bucket\"" ∈ validateConfig v) ∧
    (isValidString (jsGet (jsGet v "s3_backend") "dynamodb_table") = false →
      "Invalid \".s3_backend.dynamodb_table\"" ∈ validateConfig v) ∧
    (isArray (jsGet v "execution") = false →
      "Invalid \".execution\"" ∈ validateConfig v) := by
  have hmem : ∀ m : String, m ∈ validateConfig v → 0 < (validateConfig v).length :=
    fun m hm => List.length_pos.mpr (List.ne_nil_of_mem hm)
  have h1 : isValidString (jsGet (jsGet v "s3_backend") "role_arn") = false →
      "Invalid \".s3_backend.role_arn\"" ∈ validateConfig v := by
    intro h
    simp [validateConfig, h]
  have h2 : isValidString (jsGet (jsGet v "s3_backend") "region") = false →
      "Invalid \".s3_backend.region\"" ∈ validateConfig v := by
    intro h
    simp [validateConfig, h]
  have h3 : isValidString (jsGet (jsGet v "s3_backend") "bucket") = false →
      "Invalid \".s3_backend.bucket\"" ∈ validateConfig v := by
    intro h
    simp [validateConfig, h]
  have h4 : isValidString (jsGet (jsGet v "s3_backend") "dynamodb_table") = false →
      "Invalid \".s3_backend.dynamodb_table\"" ∈ validateConfig v := by
    intro h
    simp [validateConfig, h]
  have h5 : isArray (jsGet v "execution") = false →
      "Invalid \".execution\"" ∈ validateConfig v := by
    intro h
    simp [validateConfig, h]
  have hlen : 0 < (validateConfig v).length := by
    rcases hbad with h | h | h | h | h
    · exact hmem _ (h1 h)
    · exact hmem _ (h2 h)
    · exact hmem _ (h3 h)
    · exact hmem _ (h4 h)
    · exact hmem _ (h5 h)
  refine ⟨?_, h1, h2, h3, h4, h5⟩
  simp [loadConfigFrom, hf, hlen]

/-- Witness for C3: an empty YAML mapping in the nearest candidate violates
all five checks; loading panics with all five messages listed, a later
candidate notwithstanding. -/
theorem invalid_config_reports_all_errors_witness :
    loadConfigFrom
        (fun p => if p = ["a", "wrapper-config.yml"]
          then .parsed (.obj []) else .notFound)
        ["a"] [["a", "wrapper-config.yml"], ["a", "wrapper-config.yaml"]] =
      .panic ("Config error: " ++ pathToString ["a", "wrapper-config.yml"] ++
        "\n" ++ String.intercalate "\n" (validateConfig (.obj []))) ∧
    (isValidString (jsGet (jsGet (.obj []) "s3_backend") "role_arn") = false →
      "Invalid \".s3_backend.role_arn\"" ∈ validateConfig (.obj [])) ∧
    (isValidString (jsGet (jsGet (.obj []) "s3_backend") "region") = false →
      "Invalid \".s3_backend.region\"" ∈ validateConfig (.obj [])) ∧
    (isValidString (jsGet (jsGet (.obj []) "s3_backend") "bucket") = false →
      "Invalid \".s3_backend.bucket\"" ∈ validateConfig (.obj [])) ∧
    (isValidString (jsGet (jsGet (.obj []) "s3_backend") "dynamodb_table") = false →
      "Invalid \".s3_backend.dynamodb_table\"" ∈ validateConfig (.obj [])) ∧
    (isArray (jsGet (.obj []) "execution") = false →
      "Invalid \".execution\"" ∈ validateConfig (.obj [])) :=
  invalid_config_reports_all_errors
    (fun p => if p = ["a", "wrapper-config.yml"]
      then .parsed (.obj []) else .notFound)
    ["a"] ["a", "wrapper-config.yml"] [["a", "wrapper-config.yaml"]]
    (.obj []) rfl (Or.inl rfl)

/-- Claim C4: during the candidate scan, a missing file continues to the
next candidate; a read error or a parse error on an existing file panics at
once, naming the file and the error, whatever candidates follow. -/
theorem scan_error_handling (fs : Path → FileOutcome) (wd f : Path)
    (rest : List Path) :
    (fs f = .notFound →
      loadConfigFrom fs wd (f :: rest) = loadConfigFrom fs wd rest) ∧
    (∀ e, fs f = .readError e →
      loadConfigFrom fs wd (f :: rest) =
        .panic ("File: " ++ pathToString f ++ "\n" ++ e)) ∧
    (∀ e, fs f = .parseError e →
      loadConfigFrom fs wd (f :: rest) =
        .panic ("File: " ++ pathToString f ++ "\n" ++ e)) := by
  refine ⟨fun h => ?_, fun e h => ?_, fun e h => ?_⟩ <;>
    simp [loadConfigFrom, h]

/-- Witness for C4: the three outcomes at a concrete candidate list. -/
theorem scan_error_handling_witness :
    (loadConfigFrom (fun _ => .notFound) [] [["wrapper-config.yml"]] =
      loadConfigFrom (fun _ => .notFound) [] []) ∧
    (loadConfigFrom (fun _ => .readError "boom") [] [["wrapper-config.yml"]] =
      .panic ("File: " ++ pathToString ["wrapper-config.yml"] ++ "\n" ++ "boom")) ∧
    (loadConfigFrom (fun _ => .parseError "bad yaml") [] [["wrapper-config.yml"]] =
      .panic ("File: " ++ pathToString ["wrapper-config.yml"] ++ "\n" ++ "bad yaml")) :=
  ⟨(scan_error_handling (fun _ => .notFound) [] ["wrapper-config.yml"] []).1 rfl,
   (scan_error_handling (fun _ => .readError "boom") []
      ["wrapper-config.yml"] []).2.1 "boom" rfl,
   (scan_error_handling (fun _ => .parseError "bad yaml") []
      ["wrapper-config.yml"] []).2.2 "bad yaml" rfl⟩

/-- Claim C6: whenever an after-hook is supplied, it executes, on every exit
path of the runner: invocation succeeded, invocation raised, the before-hook
failed, or invocation was suppressed by the environment override — all are
instances of this statement, which assumes nothing about those cases. -/
theorem after_hook_always_runs (ctx : TerraformCtx) (r : Except String Unit)
    (h : ctx.after = some r) :
    Event.afterRan ∈ (terraform ctx).events := by
  unfold terraform
  rw [h]
  cases r <;> simp

/-- Witness for C6: the after-hook event is present in all four scenarios:
successful invocation, invocation raising, failing before-hook, and
suppressed invocation. -/
theorem after_hook_always_runs_witness :
    Event.afterRan ∈ (terraform ⟨some (Except.ok ()), some (Except.ok ()),
      false, ["plan"], Except.ok ⟨0, none⟩⟩).events ∧
    Event.afterRan ∈ (terraform ⟨some (Except.ok ()), some (Except.ok ()),
      false, ["plan"], Except.error "spawn failed"⟩).events ∧
    Event.afterRan ∈ (terraform ⟨some (Except.error "write failed"),
      some (Except.ok ()), false, ["plan"], Except.ok ⟨0, none⟩⟩).events ∧
    Event.afterRan ∈ (terraform ⟨some (Except.ok ()), some (Except.ok ()),
      true, ["plan"], Except.ok ⟨0, none⟩⟩).events :=
  ⟨after_hook_always_runs _ (Except.ok ()) rfl,
   after_hook_always_runs _ (Except.ok ()) rfl,
   after_hook_always_runs _ (Except.ok ()) rfl,
   after_hook_always_runs _ (Except.ok ()) rfl⟩

/-- Claim C7: when neither hook throws, the runner's result is the
subprocess's exit code on normal termination, 1 on termination by signal,
and 0 under the invocation-suppression override — in which case the
subprocess is never started. -/
theorem runner_exit_codes (ctx : TerraformCtx)
    (hb : ∀ e, ctx.before ≠ some (Except.error e))
    (ha : ∀ e, ctx.after ≠ some (Except.error e)) :
    (∀ st : ProcStatus, ctx.noTerraform = false → ctx.run = Except.ok st →
      st.signal = none → (terraform ctx).result = Except.ok st.code) ∧
    (∀ (st : ProcStatus) (sg : Nat), ctx.noTerraform = false →
      ctx.run = Except.ok st → st.signal = some sg →
      (terraform ctx).result = Except.ok 1) ∧
    (ctx.noTerraform = true →
      (terraform ctx).result = Except.ok 0 ∧
      ∀ cmd, Event.invoked cmd ∉ (terraform ctx).events) := by
  have hbefore : ctx.before = none ∨ ctx.before = some (Except.ok ()) := by
    cases hbe : ctx.before with
    | none => exact Or.inl rfl
    | some r =>
      cases r with
      | ok u => cases u; exact Or.inr rfl
      | error e => exact absurd hbe (hb e)
  have hafter : ctx.after = none ∨ ctx.after = some (Except.ok ()) := by
    cases hae : ctx.after with
    | none => exact Or.inl rfl
    | some r =>
      cases r with
      | ok u => cases u; exact Or.inr rfl
      | error e => exact absurd hae (ha e)
  refine ⟨fun st h0 hrun hsig => ?_, fun st sg h0 hrun hsig => ?_, fun h1 => ?_⟩
  · rcases hbefore with hbe | hbe <;> rcases hafter with hae | hae <;>
      simp [terraform, terraformTry, hbe, hae, h0, hrun, hsig]
  · rcases hbefore with hbe | hbe <;> rcases hafter with hae | hae <;>
      simp [terraform, terraformTry, hbe, hae, h0, hrun, hsig]
  · rcases hbefore with hbe | hbe <;> rcases hafter with hae | hae <;>
      simp [terraform, terraformTry, hbe, hae, h1]

/-- Witness for C7: normal exit code 7 is passed through, a signal death
maps to 1, and suppression yields 0 with no invocation event. -/
theorem runner_exit_codes_witness :
    (terraform ⟨none, none, false, ["plan"], Except.ok ⟨7, none⟩⟩).result =
      Except.ok (ProcStatus.mk 7 none).code ∧
    (terraform ⟨none, none, false, ["plan"], Except.ok ⟨0, some 9⟩⟩).result =
      Except.ok 1 ∧
    ((terraform ⟨none, none, true, ["plan"], Except.ok ⟨7, none⟩⟩).result =
      Except.ok 0 ∧
     ∀ cmd, Event.invoked cmd ∉
        (terraform ⟨none, none, true, ["plan"], Except.ok ⟨7, none⟩⟩).events) :=
  ⟨(runner_exit_codes _ (fun _ h => by cases h) (fun _ h => by cases h)).1
      ⟨7, none⟩ rfl rfl rfl,
   (runner_exit_codes _ (fun _ h => by cases h) (fun _ h => by cases h)).2.1
      ⟨0, some 9⟩ 9 rfl rfl rfl,
   (runner_exit_codes _ (fun _ h => by cases h) (fun _ h => by cases h)).2.2 rfl⟩

/-- When every candidate is missing, the scan returns "no configuration
found". -/
theorem loadConfigFrom_all_notFound (fs : Path → FileOutcome) (wd : Path) :
    ∀ cands : List Path, (∀ c ∈ cands, fs c = FileOutcome.notFound) →
      loadConfigFrom fs wd cands = .noConfig
  | [], _ => rfl
  | c :: rest, h => by
    have hc := h c (List.mem_cons_self c rest)
    have hrest := loadConfigFrom_all_notFound fs wd rest
      (fun x hx => h x (List.mem_cons_of_mem c hx))
    simp [loadConfigFrom, hc, hrest]

/-- Claim C5: when no candidate configuration file exists anywhere from the
working directory up to the root, the wrapper neither fails nor writes a
file: the run's only event is invoking the wrapped binary with the original
arguments, and the wrapper exits with the subprocess's own exit code. -/
theorem no_config_passthrough (fs : Path → FileOutcome) (wd : Path)
    (args : List String) (noCleanup : Bool) (st : ProcStatus)
    (writeRes removeRes : Except String Unit)
    (hnone : ∀ c ∈ allPossibleConfigLocation wd, fs c = FileOutcome.notFound)
    (hnormal : st.signal = none) :
    runMain fs wd args false noCleanup (Except.ok st) writeRes removeRes =
      .exited st.code [Event.invoked ("terraform" :: args)] := by
  have hload : loadConfig fs wd = .noConfig :=
    loadConfigFrom_all_notFound fs wd _ hnone
  simp [runMain, hload, mainFinish, terraform, terraformTry, hnormal]

/-- Witness for C5: an all-missing filesystem with exit code 7. -/
theorem no_config_passthrough_witness :
    runMain (fun _ => FileOutcome.notFound) ["a"] ["plan", "-x"] false false
        (Except.ok ⟨7, none⟩) (Except.ok ()) (Except.ok ()) =
      .exited (ProcStatus.mk 7 none).code
        [Event.invoked ("terraform" :: ["plan", "-x"])] :=
  no_config_passthrough (fun _ => FileOutcome.notFound) ["a"] ["plan", "-x"]
    false ⟨7, none⟩ (Except.ok ()) (Except.ok ()) (fun _ _ => rfl) rfl

/-- A string ending in the core `-chdir` always matches somewhere: the core
at the suffix satisfies the end-of-input branch, and scanning only fails
when no position matches. -/
theorem chdirScan_isSome_append (l : List Char) :
    (chdirScan (l ++ chdirCore)).isSome = true := by
  induction l with
  | nil => rfl
  | cons c t ih =>
    show (chdirScan (c :: (t ++ chdirCore))).isSome = true
    unfold chdirScan
    cases h : chdirAt (c :: (t ++ chdirCore)) with
    | some m => simp
    | none => simpa using ih

/-- Claim C9: the chdir-flag recognition is an unanchored regex match: any
argument that merely ends in the text "-chdir" is treated as the flag (such
as "--no-chdir" or "foo-chdir", with the *next* argument then consumed as
the working-directory value), and any argument containing "-chdir=" captures
the remainder as the value — recognition is not limited to the whole
argument being "-chdir" or "--chdir". -/
theorem chdir_recognition_unanchored :
    (∀ s : String, (chdirMatch (s ++ "-chdir")).isSome = true) ∧
    chdirMatch "--no-chdir" = some none ∧
    chdirMatch "foo-chdir" = some none ∧
    chdirMatch "foo-chdir=bar" = some (some "bar") ∧
    findChdir ["--no-chdir", "/w", "plan"] none = .ok (some "/w") ∧
    findChdir ["foo-chdir=/v"] none = .ok (some "/v") := by
  refine ⟨fun s => ?_, rfl, rfl, rfl, rfl, rfl⟩
  have hdata : (s ++ "-chdir").data = s.data ++ chdirCore := by
    rw [String.data_append]
    rfl
  rw [chdirMatch, hdata]
  exact chdirScan_isSome_append s.data

/-- The rendered absolute path of a non-root directory is the separator
followed by the separator-joined components. -/
theorem pathToString_data : ∀ (l : Path), l ≠ [] →
    (pathToString l).data = '/' :: (relString l).data
  | [a], _ => by
    simp [pathToString, relString, String.data_join, String.data_append]
  | a :: b :: t, _ => by
    have ih := pathToString_data (b :: t) (by simp)
    simp only [pathToString, List.isEmpty_cons, Bool.false_eq_true,
      if_false, List.map_cons, String.data_join, List.flatten_cons,
      String.data_append] at ih ⊢
    simp only [relString, String.data_append, ih]
    simp

/-- Joining components distributes over list append, inserting one
separator. -/
theorem relString_data_append : ∀ (l1 l2 : Path), l1 ≠ [] → l2 ≠ [] →
    (relString (l1 ++ l2)).data =
      (relString l1).data ++ '/' :: (relString l2).data
  | [a], l2, _, h2 => by
    cases l2 with
    | nil => exact absurd rfl h2
    | cons b t =>
      show (relString (a :: b :: t)).data = _
      simp [relString, String.data_append]
  | a :: b :: t, l2, _, h2 => by
    have ih := relString_data_append (b :: t) l2 (by simp) h2
    show (relString (a :: (b :: (t ++ l2)))).data = _
    simp only [relString, String.data_append, List.cons_append] at ih ⊢
    simp [ih]

/-- The key computation, evaluated: below a non-root config directory the
slice yields exactly the relative path of the working directory; below the
root it yields the relative path with its first character dropped (the
slice length `dirname.length + 1` double-counts the separator that
`dirname "/" = "/"` already carries). -/
theorem configKey_eq (cfgDir rest : Path) (nm : String) (hrest : rest ≠ []) :
    configKey (cfgDir ++ rest) (cfgDir ++ [nm]) =
      if cfgDir.isEmpty then (relString rest).drop 1 else relString rest := by
  have hdrop : (cfgDir ++ [nm]).dropLast = cfgDir := by
    simp
  apply String.ext
  rw [configKey, hdrop, String.data_drop]
  cases cfgDir with
  | nil =>
    have hwd := pathToString_data rest hrest
    simp only [List.nil_append, List.isEmpty_nil, if_true, String.data_drop]
    rw [hwd]
    rfl
  | cons d ds =>
    have hwd := pathToString_data ((d :: ds) ++ rest) (by simp)
    have hdir := pathToString_data (d :: ds) (by simp)
    have hsplit := relString_data_append (d :: ds) rest (by simp) hrest
    have hlen : (pathToString (d :: ds)).length =
        (relString (d :: ds)).data.length + 1 := by
      rw [String.length, hdir]
      simp
    rw [hwd, hsplit, hlen]
    simp only [List.isEmpty_cons, Bool.false_eq_true, if_false]
    rw [List.drop_succ_cons, List.append_cons _ '/' (relString rest).data,
      List.drop_left']
    rw [List.length_append]
    rfl

/-- Candidates that are all missing are skipped: the scan of a prefixed
candidate list reduces to the scan of the remainder. -/
theorem loadConfigFrom_skip (fs : Path → FileOutcome) (wd : Path) :
    ∀ (pre cands : List Path), (∀ c ∈ pre, fs c = FileOutcome.notFound) →
      loadConfigFrom fs wd (pre ++ cands) = loadConfigFrom fs wd cands
  | [], _, _ => rfl
  | c :: pre, cands, h => by
    have hc := h c (List.mem_cons_self c pre)
    have hrest := loadConfigFrom_skip fs wd pre cands
      (fun x hx => h x (List.mem_cons_of_mem c hx))
    simp [loadConfigFrom, hc, hrest]

/-- Claim C1 (amended): for a working directory that is a strict descendant
of a directory holding a valid configuration file, with every closer
candidate missing, the locator returns that file, and the computed key is
the working directory's path relative to the file's directory — except when
the file's directory is the filesystem root, where the key is that relative
path with its first character dropped. -/
theorem locator_finds_nearest_config (fs : Path → FileOutcome)
    (cfgDir rest : Path) (nm : String) (pre post : List Path) (v : JSValue)
    (hrest : rest ≠ [])
    (hcands : allPossibleConfigLocation (cfgDir ++ rest) =
      pre ++ (cfgDir ++ [nm]) :: post)
    (hpre : ∀ p ∈ pre, fs p = FileOutcome.notFound)
    (hfound : fs (cfgDir ++ [nm]) = FileOutcome.parsed v)
    (hvalid : validateConfig v = []) :
    loadConfig fs (cfgDir ++ rest) =
      .found { file := cfgDir ++ [nm], workingDir := cfgDir ++ rest,
               key := if cfgDir.isEmpty then (relString rest).drop 1
                      else relString rest,
               config := v } := by
  have hkey := configKey_eq cfgDir rest nm hrest
  rw [loadConfig, hcands, loadConfigFrom_skip fs _ pre _ hpre]
  simp [loadConfigFrom, hfound, hvalid, hkey]

/-- Claim C1, counterexample: the configuration file sits in the filesystem
root and the working directory is `/a`, a strict descendant with no other
candidate in between; the locator returns the file but computes the key `""`
instead of the relative path `"a"` (the slice length `dirname.length + 1`
double-counts the separator already carried by `dirname = "/"`). -/
theorem locator_root_key_counterexample :
    loadConfig
        (fun p => if p = ["wrapper-config.yml"]
          then .parsed validConfigExample else .notFound)
        ["a"] =
      .found { file := ["wrapper-config.yml"], workingDir := ["a"],
               key := "", config := validConfigExample } ∧
    relString ["a"] = "a" ∧ ("" : String) ≠ "a" :=
  ⟨rfl, rfl, by decide⟩

/-- Witness for C1 (amended): a valid configuration at `/p` and working
directory `/p/s`; the locator returns `/p/wrapper-config.yml` with key
`"s"`. -/
theorem locator_finds_nearest_config_witness :
    loadConfig
        (fun p => if p = ["p", "wrapper-config.yml"]
          then .parsed validConfigExample else .notFound)
        (["p"] ++ ["s"]) =
      .found { file := ["p"] ++ ["wrapper-config.yml"],
               workingDir := ["p"] ++ ["s"],
               key := if (["p"] : Path).isEmpty then (relString ["s"]).drop 1
                      else relString ["s"],
               config := validConfigExample } :=
  locator_finds_nearest_config
    (fun p => if p = ["p", "wrapper-config.yml"]
      then .parsed validConfigExample else .notFound)
    ["p"] ["s"] "wrapper-config.yml"
    [["p", "s", "wrapper-config.yml"], ["p", "s", "wrapper-config.yaml"]]
    [["p", "wrapper-config.yaml"], ["wrapper-config.yml"],
      ["wrapper-config.yaml"]]
    validConfigExample
    (by simp) rfl
    (by
      intro p hp
      cases hp with
      | head => rfl
      | tail _ hp2 =>
        cases hp2 with
        | head => rfl
        | tail _ hp3 => cases hp3)
    rfl rfl

/-- A string occurs in any string that starts with it. -/
theorem containsSub_head (m b : String) : containsSub (m ++ b) m :=
  ⟨"", b, rfl⟩

/-- Occurrence is preserved by prepending. -/
theorem containsSub_tail {s m : String} (p : String) (h : containsSub s m) :
    containsSub (p ++ s) m := by
  obtain ⟨a, b, rfl⟩ := h
  exact ⟨p ++ a, b, by rw [String.append_assoc]⟩

/-- Double occurrence, when the string starts with one occurrence and the
tail holds another. -/
theorem containsTwice_head {tail m : String} (h : containsSub tail m) :
    containsTwice (m ++ tail) m := by
  obtain ⟨a, b, rfl⟩ := h
  exact ⟨"", a, b, rfl⟩

/-- Double occurrence is preserved by prepending. -/
theorem containsTwice_tail {s m : String} (p : String) (h : containsTwice s m) :
    containsTwice (p ++ s) m := by
  obtain ⟨a, b, c, rfl⟩ := h
  exact ⟨p ++ a, b, c, by rw [String.append_assoc]⟩

/-- The rendered template, regrouped so that each labelled, quoted field of
the backend block and of the `locals` block is a visible sub-term. The
right-hand side is the same string — only the association of the
concatenation differs. -/
theorem generatedContent_decomposed (backend : S3Backend)
    (key executionRole : String) :
    generatedContent backend key executionRole =
      "# THIS FILE IS GENERATED, DO NOT EDIT, DO NOT COMMIT\n\nterraform \x7b\n  backend \"s3\" \x7b\n    " ++
      (("role_arn       = \"" ++ backend.role_arn ++ "\"") ++ ("\n    " ++
      (("region         = \"" ++ backend.region ++ "\"") ++ ("\n    " ++
      (("bucket         = \"" ++ backend.bucket ++ "\"") ++ ("\n    " ++
      (("dynamodb_table = \"" ++ backend.dynamodb_table ++ "\"") ++ ("\n    " ++
      (("key            = \"" ++ key ++ "\"") ++ ("\n  \x7d\n\x7d\n\nlocals \x7b\n  generated = \x7b\n    " ++
      (("state_key          = \"" ++ key ++ "\"") ++ ("\n    " ++
      (("aws_execution_role = \"" ++ executionRole ++ "\"") ++ ("\n    remote_state = \x7b\n      backend = \"s3\"\n      config = \x7b\n        " ++
      (("role_arn       = \"" ++ backend.role_arn ++ "\"") ++ ("\n        " ++
      (("region         = \"" ++ backend.region ++ "\"") ++ ("\n        " ++
      (("bucket         = \"" ++ backend.bucket ++ "\"") ++ ("\n        " ++
      (("dynamodb_table = \"" ++ backend.dynamodb_table ++ "\"") ++
        "\n      \x7d\n    \x7d\n  \x7d\n\x7d\n"))))))))))))))))))))) := by
  unfold generatedContent
  rw [show ("# THIS FILE IS GENERATED, DO NOT EDIT, DO NOT COMMIT\n\nterraform \x7b\n  backend \"s3\" \x7b\n    role_arn       = \"" : String) =
        "# THIS FILE IS GENERATED, DO NOT EDIT, DO NOT COMMIT\n\nterraform \x7b\n  backend \"s3\" \x7b\n    " ++ "role_arn       = \"" from rfl,
      show ("\"\n    region         = \"" : String) =
        "\"" ++ ("\n    " ++ "region         = \"") from rfl,
      show ("\"\n    bucket         = \"" : String) =
        "\"" ++ ("\n    " ++ "bucket         = \"") from rfl,
      show ("\"\n    dynamodb_table = \"" : String) =
        "\"" ++ ("\n    " ++ "dynamodb_table = \"") from rfl,
      show ("\"\n    key            = \"" : String) =
        "\"" ++ ("\n    " ++ "key            = \"") from rfl,
      show ("\"\n  \x7d\n\x7d\n\nlocals \x7b\n  generated = \x7b\n    state_key          = \"" : String) =
        "\"" ++ ("\n  \x7d\n\x7d\n\nlocals \x7b\n  generated = \x7b\n    " ++ "state_key          = \"") from rfl,
      show ("\"\n    aws_execution_role = \"" : String) =
        "\"" ++ ("\n    " ++ "aws_execution_role = \"") from rfl,
      show ("\"\n    remote_state = \x7b\n      backend = \"s3\"\n      config = \x7b\n        role_arn       = \"" : String) =
        "\"" ++ ("\n    remote_state = \x7b\n      backend = \"s3\"\n      config = \x7b\n        " ++ "role_arn       = \"") from rfl,
      show ("\"\n        region         = \"" : String) =
        "\"" ++ ("\n        " ++ "region         = \"") from rfl,
      show ("\"\n        bucket         = \"" : String) =
        "\"" ++ ("\n        " ++ "bucket         = \"") from rfl,
      show ("\"\n        dynamodb_table = \"" : String) =
        "\"" ++ ("\n        " ++ "dynamodb_table = \"") from rfl,
      show ("\"\n      \x7d\n    \x7d\n  \x7d\n\x7d\n" : String) =
        "\"" ++ "\n      \x7d\n    \x7d\n  \x7d\n\x7d\n" from rfl]
  simp only [String.append_assoc]

/-- Claim C8: the rendered content carries the literal key both in the
backend block's `key` field and in `locals.generated.state_key`, and each of
the four `s3_backend` values appears, identically quoted under its label, in
both the backend block and the `locals.generated.remote_state.config`
block. -/
theorem generated_content_embeds_key_and_backend (backend : S3Backend)
    (key role : String) :
    containsSub (generatedContent backend key role)
      ("key            = \"" ++ key ++ "\"") ∧
    containsSub (generatedContent backend key role)
      ("state_key          = \"" ++ key ++ "\"") ∧
    containsTwice (generatedContent backend key role)
      ("role_arn       = \"" ++ backend.role_arn ++ "\"") ∧
    containsTwice (generatedContent backend key role)
      ("region         = \"" ++ backend.region ++ "\"") ∧
    containsTwice (generatedContent backend key role)
      ("bucket         = \"" ++ backend.bucket ++ "\"") ∧
    containsTwice (generatedContent backend key role)
      ("dynamodb_table = \"" ++ backend.dynamodb_table ++ "\"") := by
  rw [generatedContent_decomposed]
  refine ⟨?_, ?_, ?_, ?_, ?_, ?_⟩
  · iterate 9 apply containsSub_tail
    exact containsSub_head _ _
  · iterate 11 apply containsSub_tail
    exact containsSub_head _ _
  · iterate 1 apply containsTwice_tail
    apply containsTwice_head
    iterate 13 apply containsSub_tail
    exact containsSub_head _ _
  · iterate 3 apply containsTwice_tail
    apply containsTwice_head
    iterate 13 apply containsSub_tail
    exact containsSub_head _ _
  · iterate 5 apply containsTwice_tail
    apply containsTwice_head
    iterate 13 apply containsSub_tail
    exact containsSub_head _ _
  · iterate 7 apply containsTwice_tail
    apply containsTwice_head
    iterate 13 apply containsSub_tail
    exact containsSub_head _ _

end Terrawrap
